import Mathlib

/-!
Verification of the configuration subsystem of the transformer inference
simulator (`src/utils/config.py`).

The Python module is shallowly embedded.  Python is dynamically typed, so a
configuration field holds an arbitrary runtime value; we model the universe of
runtime values that can flow through this module as the inductive `Value`
(integers, floats, booleans, strings, `None`, workload-enum members, lists and
string-keyed dictionaries).  Python floats are modelled as exact rationals
extended with the two infinities: the module never performs float arithmetic,
it only copies float values and compares them, and for the values at play
(decimal literals, `float('inf')`) those comparisons agree exactly with the
extended-rational ones.  The YAML and JSON (de)serializers are third-party
libraries (`yaml.safe_dump`/`safe_load`, `json.dump`/`load`); on the generic
trees this module produces they are lossless inverse pairs (including the
`Infinity`/`.inf` encodings of the infinite time limit), so a serialized file
is modelled as the generic tree it encodes, tagged empty right after
`open(path, 'w')` truncates it.
-/

/-- Modelled from the spec: the Enumeration Registry (`WorkloadType` in
`src/environment`, which is not part of the provided sources) is a closed set
of named workload-model categories, looked up by symbolic name.  `SMALL` is the
member used by the default factory; the remaining member names are
representative.  The name `"NONEXISTENT"` is not a member. -/
inductive WorkloadType where
  | SMALL
  | MEDIUM
  | LARGE
deriving DecidableEq, Repr

/-- Canonical symbolic name of a registry member (Python `member.name`). -/
def WorkloadType.name : WorkloadType → String
  | .SMALL => "SMALL"
  | .MEDIUM => "MEDIUM"
  | .LARGE => "LARGE"

/-- Registry lookup by symbolic name (Python `WorkloadType[s]`), `none` when
the name is not a member. -/
def workloadTypeFromName (s : String) : Option WorkloadType :=
  if s = "SMALL" then some .SMALL
  else if s = "MEDIUM" then some .MEDIUM
  else if s = "LARGE" then some .LARGE
  else none

/-- Python float values reachable in this module: exact rationals extended
with `float('inf')` and `float('-inf')`. -/
inductive Pfloat where
  | finite (q : ℚ)
  | pinf
  | ninf
deriving DecidableEq, Repr

/-- Total order on the modelled floats (`a <= b` in Python). -/
def Pfloat.leb : Pfloat → Pfloat → Bool
  | .ninf, _ => true
  | _, .pinf => true
  | .pinf, _ => false
  | _, .ninf => false
  | .finite a, .finite b => decide (a ≤ b)

/-- Strict order on the modelled floats (`a < b` in Python). -/
def Pfloat.ltb (a b : Pfloat) : Bool := !(Pfloat.leb b a)

instance : LE Pfloat := ⟨fun a b => Pfloat.leb a b = true⟩
instance : LT Pfloat := ⟨fun a b => Pfloat.ltb a b = true⟩

instance (a b : Pfloat) : Decidable (a ≤ b) :=
  inferInstanceAs (Decidable (_ = true))

instance (a b : Pfloat) : Decidable (a < b) :=
  inferInstanceAs (Decidable (_ = true))

/-- The rational `0.3` in lowest terms (kernel-reducible representation). -/
def ratP3 : ℚ := ⟨3, 10, by norm_num, by norm_num [Nat.Coprime]⟩

/-- The rational `0.9` in lowest terms (kernel-reducible representation). -/
def ratP9 : ℚ := ⟨9, 10, by norm_num, by norm_num [Nat.Coprime]⟩

/-- The rational `0.5` in lowest terms (kernel-reducible representation). -/
def ratP5 : ℚ := ⟨1, 2, by norm_num, by norm_num [Nat.Coprime]⟩

/-- Python runtime values that can appear in a configuration or in a generic
(de)serialized tree: scalars, `None`, workload-enum members, lists, and
string-keyed dictionaries (association lists in insertion order). -/
inductive Value where
  | vint (n : ℤ)
  | vfloat (f : Pfloat)
  | vbool (b : Bool)
  | vstr (s : String)
  | vnone
  | venum (w : WorkloadType)
  | vlist (xs : List Value)
  | vdict (d : List (String × Value))

/-- Dictionary key lookup (`k in d` / `d[k]`). -/
def dGet (d : List (String × Value)) (k : String) : Option Value :=
  match d with
  | [] => none
  | (k', v) :: r => if k' = k then some v else dGet r k

/-- Dictionary key assignment `d[k] = v`: replaces an existing key in place,
appends a new key (Python dict insertion-order semantics). -/
def dSet (d : List (String × Value)) (k : String) (v : Value) :
    List (String × Value) :=
  match d with
  | [] => [(k, v)]
  | (k', v') :: r => if k' = k then (k, v) :: r else (k', v') :: dSet r k v

/-- Network topology configuration (`NetworkConfig` dataclass).  Python
dataclasses do not enforce the field annotations, so every field holds a
runtime `Value`. -/
structure NetworkConfig where
  topology_type : Value
  num_devices : Value
  min_bandwidth : Value
  max_bandwidth : Value
  edge_probability : Value
  seed : Value

/-- Resource distribution configuration (`ResourceConfig` dataclass). -/
structure ResourceConfig where
  memory_mu : Value
  memory_sigma : Value
  memory_min : Value
  memory_max : Value
  compute_mu : Value
  compute_sigma : Value
  compute_min : Value
  compute_max : Value
  seed : Value

/-- Workload generation configuration (`WorkloadConfig` dataclass). -/
structure WorkloadConfig where
  model_type : Value
  initial_sequence_lengths : Value
  generation_steps : Value
  precision_bytes : Value
  seed : Value

/-- Algorithm configuration parameters (`AlgorithmConfig` dataclass). -/
structure AlgorithmConfig where
  migration_threshold : Value
  backtrack_limit : Value
  cache_placement_strategy : Value
  enable_dynamic_adjustment : Value

/-- Experiment configuration (`ExperimentConfig` dataclass). -/
structure ExperimentConfig where
  name : Value
  description : Value
  num_runs : Value
  checkpoint_interval : Value
  time_limit : Value
  metrics_output_dir : Value
  save_intermediate : Value

/-- Complete simulation configuration (`SimulationConfig` dataclass). -/
structure SimulationConfig where
  network : NetworkConfig
  resources : ResourceConfig
  workload : WorkloadConfig
  algorithm : AlgorithmConfig
  experiment : ExperimentConfig

/-- Failure kinds of the module, named after the spec's error taxonomy.
In Python: `missingField` is the `KeyError` of a missing mapping key or the
`TypeError` of a missing required dataclass argument; `unexpectedField` is the
`TypeError` of an unexpected keyword argument; `notAMapping` is the `TypeError`
of subscripting or `**`-splatting a non-mapping; `unknownEnumMember` is the
`KeyError` of an enum name lookup; `unsupportedFormat` is the
`ValueError("Configuration file must be .yaml or .json")`; `fileNotFound` is
`FileNotFoundError`; `malformedInput` is a parser error of the textual form;
`attributeError` is the `AttributeError` of taking `.name` on a value that is
not an enum member. -/
inductive Err where
  | missingField (k : String)
  | unexpectedField (k : String)
  | notAMapping
  | unknownEnumMember (s : String)
  | unsupportedFormat
  | fileNotFound
  | malformedInput
  | attributeError
deriving DecidableEq, Repr

/-- Keyword-argument check of a dataclass constructor call `Cls(**d)`: every
key of `d` must be a declared field, otherwise `TypeError: unexpected keyword
argument` (checked before missing arguments, as in CPython). -/
def checkKeys (d : List (String × Value)) (allowed : List String) :
    Except Err Unit :=
  match d with
  | [] => .ok ()
  | (k, _) :: r =>
    if k ∈ allowed then checkKeys r allowed else .error (.unexpectedField k)

/-- Required dataclass field: absent from the keyword arguments means
`TypeError: missing required argument`. -/
def reqField (d : List (String × Value)) (k : String) : Except Err Value :=
  match dGet d k with
  | some v => .ok v
  | none => .error (.missingField k)

/-- Defaulted dataclass field: the declared default is used when the keyword
is absent. -/
def optField (d : List (String × Value)) (k : String) (dflt : Value) : Value :=
  (dGet d k).getD dflt

/-- Section access `config_dict[k]` followed by `**`-splatting: the tree must
be a mapping, the key must be present, and its value must itself be a
mapping. -/
def getSection (v : Value) (k : String) :
    Except Err (List (String × Value)) :=
  match v with
  | .vdict d =>
    match dGet d k with
    | some (.vdict s) => .ok s
    | some _ => .error .notAMapping
    | none => .error (.missingField k)
  | _ => .error .notAMapping

/-- Constructor call `NetworkConfig(**d)`. -/
def mkNetwork (d : List (String × Value)) : Except Err NetworkConfig := do
  checkKeys d ["topology_type", "num_devices", "min_bandwidth",
    "max_bandwidth", "edge_probability", "seed"]
  let tt ← reqField d "topology_type"
  let nd ← reqField d "num_devices"
  let mb ← reqField d "min_bandwidth"
  let xb ← reqField d "max_bandwidth"
  return ⟨tt, nd, mb, xb,
    optField d "edge_probability" (.vfloat (.finite ratP3)),
    optField d "seed" .vnone⟩

/-- Constructor call `ResourceConfig(**d)`. -/
def mkResources (d : List (String × Value)) : Except Err ResourceConfig := do
  checkKeys d ["memory_mu", "memory_sigma", "memory_min", "memory_max",
    "compute_mu", "compute_sigma", "compute_min", "compute_max", "seed"]
  let mmu ← reqField d "memory_mu"
  let msig ← reqField d "memory_sigma"
  let mmin ← reqField d "memory_min"
  let mmax ← reqField d "memory_max"
  let cmu ← reqField d "compute_mu"
  let csig ← reqField d "compute_sigma"
  let cmin ← reqField d "compute_min"
  let cmax ← reqField d "compute_max"
  return ⟨mmu, msig, mmin, mmax, cmu, csig, cmin, cmax,
    optField d "seed" .vnone⟩

/-- Registry lookup `WorkloadType[v]`: succeeds exactly on the symbolic name
of a member; any other value raises a lookup error. -/
def lookupWT (v : Value) : Except Err WorkloadType :=
  match v with
  | .vstr s =>
    match workloadTypeFromName s with
    | some w => .ok w
    | none => .error (.unknownEnumMember s)
  | _ => .error (.unknownEnumMember "")

/-- Call `WorkloadConfig(model_type=WorkloadType[d['model_type']], **rest)`
where `rest` drops the `model_type` key: the enum lookup is evaluated first,
then the remaining keywords are bound. -/
def mkWorkload (d : List (String × Value)) : Except Err WorkloadConfig := do
  let mtv ← reqField d "model_type"
  let wt ← lookupWT mtv
  let rest := d.filter (fun kv => kv.1 ≠ "model_type")
  checkKeys rest ["initial_sequence_lengths", "generation_steps",
    "precision_bytes", "seed"]
  let isl ← reqField rest "initial_sequence_lengths"
  let gs ← reqField rest "generation_steps"
  return ⟨.venum wt, isl, gs,
    optField rest "precision_bytes" (.vint 4),
    optField rest "seed" .vnone⟩

/-- Constructor call `AlgorithmConfig(**d)`: every field has a default. -/
def mkAlgorithm (d : List (String × Value)) : Except Err AlgorithmConfig := do
  checkKeys d ["migration_threshold", "backtrack_limit",
    "cache_placement_strategy", "enable_dynamic_adjustment"]
  return ⟨optField d "migration_threshold" (.vfloat (.finite ratP9)),
    optField d "backtrack_limit" (.vint 100),
    optField d "cache_placement_strategy" (.vstr "colocated"),
    optField d "enable_dynamic_adjustment" (.vbool true)⟩

/-- Constructor call `ExperimentConfig(**d)`. -/
def mkExperiment (d : List (String × Value)) : Except Err ExperimentConfig := do
  checkKeys d ["name", "description", "num_runs", "checkpoint_interval",
    "time_limit", "metrics_output_dir", "save_intermediate"]
  let nm ← reqField d "name"
  let ds ← reqField d "description"
  return ⟨nm, ds,
    optField d "num_runs" (.vint 1),
    optField d "checkpoint_interval" (.vint 10),
    optField d "time_limit" (.vfloat .pinf),
    optField d "metrics_output_dir" (.vstr "results"),
    optField d "save_intermediate" (.vbool false)⟩

/-- `SimulationConfig.from_dict`: build each section from its sub-mapping, in
the source's argument order. -/
def from_dict (v : Value) : Except Err SimulationConfig := do
  let network ← mkNetwork (← getSection v "network")
  let resources ← mkResources (← getSection v "resources")
  let workload ← mkWorkload (← getSection v "workload")
  let algorithm ← mkAlgorithm (← getSection v "algorithm")
  let experiment ← mkExperiment (← getSection v "experiment")
  return ⟨network, resources, workload, algorithm, experiment⟩

/-- Attribute access `self.workload.model_type.name` used by `to_dict`: only
an enum member has a `.name`. -/
def enumName (v : Value) : Except Err String :=
  match v with
  | .venum w => .ok w.name
  | _ => .error .attributeError

/-- `SimulationConfig.to_dict`: the generic nested mapping mirroring the five
sections, with the workload model encoded by its symbolic name. -/
def to_dict (c : SimulationConfig) : Except Err Value := do
  let mt ← enumName c.workload.model_type
  return .vdict [
    ("network", .vdict [
      ("topology_type", c.network.topology_type),
      ("num_devices", c.network.num_devices),
      ("min_bandwidth", c.network.min_bandwidth),
      ("max_bandwidth", c.network.max_bandwidth),
      ("edge_probability", c.network.edge_probability),
      ("seed", c.network.seed)]),
    ("resources", .vdict [
      ("memory_mu", c.resources.memory_mu),
      ("memory_sigma", c.resources.memory_sigma),
      ("memory_min", c.resources.memory_min),
      ("memory_max", c.resources.memory_max),
      ("compute_mu", c.resources.compute_mu),
      ("compute_sigma", c.resources.compute_sigma),
      ("compute_min", c.resources.compute_min),
      ("compute_max", c.resources.compute_max),
      ("seed", c.resources.seed)]),
    ("workload", .vdict [
      ("model_type", .vstr mt),
      ("initial_sequence_lengths", c.workload.initial_sequence_lengths),
      ("generation_steps", c.workload.generation_steps),
      ("precision_bytes", c.workload.precision_bytes),
      ("seed", c.workload.seed)]),
    ("algorithm", .vdict [
      ("migration_threshold", c.algorithm.migration_threshold),
      ("backtrack_limit", c.algorithm.backtrack_limit),
      ("cache_placement_strategy", c.algorithm.cache_placement_strategy),
      ("enable_dynamic_adjustment", c.algorithm.enable_dynamic_adjustment)]),
    ("experiment", .vdict [
      ("name", c.experiment.name),
      ("description", c.experiment.description),
      ("num_runs", c.experiment.num_runs),
      ("checkpoint_interval", c.experiment.checkpoint_interval),
      ("time_limit", c.experiment.time_limit),
      ("metrics_output_dir", c.experiment.metrics_output_dir),
      ("save_intermediate", c.experiment.save_intermediate)])]

/-- `create_default_config`. -/
def create_default_config : SimulationConfig :=
  ⟨⟨.vstr "edge_cluster", .vint 8, .vfloat (.finite 1), .vfloat (.finite 10),
    .vfloat (.finite ratP3), .vnone⟩,
   ⟨.vfloat (.finite 2), .vfloat (.finite ratP5), .vfloat (.finite 1),
    .vfloat (.finite 16), .vfloat (.finite 5), .vfloat (.finite ratP5),
    .vfloat (.finite 1), .vfloat (.finite 32), .vnone⟩,
   ⟨.venum .SMALL, .vlist [.vint 128, .vint 256, .vint 512],
    .vlist [.vint 32, .vint 64, .vint 128], .vint 4, .vnone⟩,
   ⟨.vfloat (.finite ratP9), .vint 100, .vstr "colocated", .vbool true⟩,
   ⟨.vstr "default_experiment", .vstr "Default experiment configuration",
    .vint 1, .vint 10, .vfloat .pinf, .vstr "results", .vbool false⟩⟩

/-- Numeric view of a value for Python comparisons: ints, floats and booleans
(`True == 1`, `False == 0`) are mutually comparable numbers. -/
def toPf (v : Value) : Option Pfloat :=
  match v with
  | .vint n => some (.finite (n : ℚ))
  | .vfloat f => some f
  | .vbool b => some (.finite (if b then 1 else 0))
  | _ => none

/-- Python `a <= b`: numbers compare numerically, strings lexicographically;
any other combination raises `TypeError` (modelled as `.error ()`). -/
def pyLe (a b : Value) : Except Unit Bool :=
  match toPf a, toPf b with
  | some x, some y => .ok (x.leb y)
  | _, _ =>
    match a, b with
    | .vstr s, .vstr t => .ok (decide ¬(t < s))
    | _, _ => .error ()

/-- Python `a < b`. -/
def pyLt (a b : Value) : Except Unit Bool :=
  match toPf a, toPf b with
  | some x, some y => .ok (x.ltb y)
  | _, _ =>
    match a, b with
    | .vstr s, .vstr t => .ok (decide (s < t))
    | _, _ => .error ()

/-- Python `a > b`. -/
def pyGt (a b : Value) : Except Unit Bool := pyLt b a

/-- Python truthiness (`bool(v)`): never raises. -/
def pyTruthy (v : Value) : Bool :=
  match v with
  | .vint n => decide (n ≠ 0)
  | .vfloat f => decide (f ≠ .finite 0)
  | .vbool b => b
  | .vstr s => decide (s ≠ "")
  | .vnone => false
  | .venum _ => true
  | .vlist xs => !xs.isEmpty
  | .vdict d => !d.isEmpty

/-- Python iteration `for x in v`: lists yield their elements, strings their
one-character substrings, dicts their keys; scalars raise `TypeError`. -/
def pyIter (v : Value) : Except Unit (List Value) :=
  match v with
  | .vlist xs => .ok xs
  | .vstr s => .ok (s.toList.map (fun c => .vstr (String.mk [c])))
  | .vdict d => .ok (d.map (fun kv => .vstr kv.1))
  | _ => .error ()

/-- Python `any(x <= 0 for x in xs)`: short-circuits at the first true
comparison, propagating a comparison fault. -/
def anyLeZeroList (xs : List Value) : Except Unit Bool :=
  match xs with
  | [] => .ok false
  | x :: r => do
    let b ← pyLe x (.vint 0)
    if b then return true else anyLeZeroList r

/-- Python `any(x <= 0 for x in v)` over an arbitrary iterable value. -/
def pyAnyLeZero (v : Value) : Except Unit Bool := do
  anyLeZeroList (← pyIter v)

/-- Python chained `0 <= v <= 1` (the second comparison is evaluated only
when the first succeeds and is true). -/
def pyBetweenZeroOne (v : Value) : Except Unit Bool := do
  let b ← pyLe (.vint 0) v
  if b then pyLe v (.vint 1) else return false

/-- Body of `validate_config` inside the `try` block: the ordered sequence of
checks, each returning `False` at the first failure; a comparison fault
escapes as an exception. -/
def checksBody (c : SimulationConfig) : Except Unit Bool := do
  -- Validate network configuration
  let b ← pyLe c.network.num_devices (.vint 0)
  if b then return false
  let b ← pyLe c.network.min_bandwidth (.vint 0)
  if b then return false
  let b ← pyLe c.network.max_bandwidth (.vint 0)
  if b then return false
  let b ← pyGt c.network.min_bandwidth c.network.max_bandwidth
  if b then return false
  let b ← pyBetweenZeroOne c.network.edge_probability
  if !b then return false
  -- Validate resource configuration
  let b ← anyLeZeroList [c.resources.memory_min, c.resources.memory_max,
    c.resources.compute_min, c.resources.compute_max]
  if b then return false
  let b ← pyGt c.resources.memory_min c.resources.memory_max
  if b then return false
  let b ← pyGt c.resources.compute_min c.resources.compute_max
  if b then return false
  -- Validate workload configuration
  if !(pyTruthy c.workload.initial_sequence_lengths) then return false
  if !(pyTruthy c.workload.generation_steps) then return false
  let b ← pyAnyLeZero c.workload.initial_sequence_lengths
  if b then return false
  let b ← pyAnyLeZero c.workload.generation_steps
  if b then return false
  let b ← pyLe c.workload.precision_bytes (.vint 0)
  if b then return false
  -- Validate algorithm configuration
  let b ← pyBetweenZeroOne c.algorithm.migration_threshold
  if !b then return false
  let b ← pyLe c.algorithm.backtrack_limit (.vint 0)
  if b then return false
  -- Validate experiment configuration
  let b ← pyLe c.experiment.num_runs (.vint 0)
  if b then return false
  let b ← pyLe c.experiment.checkpoint_interval (.vint 0)
  if b then return false
  let b ← pyLe c.experiment.time_limit (.vint 0)
  if b then return false
  return true

/-- The `except Exception: return False` boundary of `validate_config`: a
normal result is passed through, a fault becomes `false`. -/
def runVal : Except Unit Bool → Bool
  | .ok b => b
  | .error _ => false

/-- `validate_config`: the checks wrapped in `try ... except Exception:
return False`. -/
def validate_config (c : SimulationConfig) : Bool :=
  runVal (checksBody c)

/-- Recursive dictionary merge `update_dict(d1, d2)` of `merge_configs`:
for each override key, recurse when both sides hold mappings, otherwise the
override value wholly replaces the base value. -/
def update_dict (d1 d2 : List (String × Value)) : List (String × Value) :=
  match d2 with
  | [] => d1
  | (k, v) :: rest =>
    match dGet d1 k, v with
    | some (.vdict m1), .vdict m2 =>
      update_dict (dSet d1 k (.vdict (update_dict m1 m2))) rest
    | _, _ => update_dict (dSet d1 k v) rest
termination_by sizeOf d2
decreasing_by all_goals simp_wf <;> omega

/-- `merge_configs`: encode the base, deep-merge the override mapping into
it, decode the result. -/
def merge_configs (base : SimulationConfig)
    (override : List (String × Value)) : Except Err SimulationConfig :=
  match to_dict base with
  | .error e => .error e
  | .ok (.vdict bd) => from_dict (.vdict (update_dict bd override))
  | .ok v => from_dict v

/-- A filesystem path, split into the parent-directory components and the
final file name (mirroring `pathlib.Path.parent` / `.name`). -/
structure FsPath where
  dir : List String
  fname : String
deriving DecidableEq, Repr

/-- Characters after the last `'.'` of a character list, if any. -/
def suffixChars : List Char → Option (List Char)
  | [] => none
  | c :: r =>
    match suffixChars r with
    | some s => some s
    | none => if c = '.' then some r else none

/-- `pathlib.Path.suffix` of a file name: from the last dot (inclusive) to the
end, empty when there is no dot or when the only dot leads the name. -/
def fnameSuffix (name : String) : String :=
  match name.toList with
  | [] => ""
  | _ :: r =>
    match suffixChars r with
    | some s => String.mk ('.' :: s)
    | none => ""

/-- Content of a file: `empty` right after `open(path, 'w')` truncates it,
or the generic tree a serializer wrote (the YAML and JSON libraries are
lossless inverse pairs on these trees, including the infinite time limit,
so a serialized document is identified with its tree). -/
inductive FileContent where
  | empty
  | doc (v : Value)

/-- Filesystem state: the set of directories and the files with their
content. -/
structure FileSystem where
  dirs : List (List String)
  files : List (FsPath × FileContent)

/-- Look a file up. -/
def fsLookup (fs : FileSystem) (p : FsPath) : Option FileContent :=
  match fs.files.find? (fun e => e.1 = p) with
  | some e => some e.2
  | none => none

/-- Write a file (create or replace). -/
def fsWrite (fs : FileSystem) (p : FsPath) (c : FileContent) : FileSystem :=
  ⟨fs.dirs, (p, c) :: fs.files.filter (fun e => e.1 ≠ p)⟩

/-- `path.parent.mkdir(parents=True, exist_ok=True)`. -/
def mkdirParents (fs : FileSystem) (p : FsPath) : FileSystem :=
  ⟨p.dir :: fs.dirs, fs.files⟩

/-- The empty filesystem. -/
def emptyFS : FileSystem := ⟨[], []⟩

/-- `load_config`: existence check first, then the file is opened and the
suffix dispatched; `yaml.safe_load` of an empty file yields `None`, while
`json.load` of an empty file is a parse error. -/
def load_config (fs : FileSystem) (p : FsPath) : Except Err SimulationConfig :=
  match fsLookup fs p with
  | none => .error .fileNotFound
  | some content =>
    if fnameSuffix p.fname = ".yaml" then
      match content with
      | .doc v => from_dict v
      | .empty => from_dict .vnone
    else if fnameSuffix p.fname = ".json" then
      match content with
      | .doc v => from_dict v
      | .empty => .error .malformedInput
    else .error .unsupportedFormat

/-- `save_config`: encode first, then create the parent directories, then
`open(path, 'w')` truncates the file, and only then is the suffix dispatched
— an unsupported suffix raises after the empty file exists. -/
def save_config (c : SimulationConfig) (p : FsPath) (fs : FileSystem) :
    FileSystem × Except Err Unit :=
  match to_dict c with
  | .error e => (fs, .error e)
  | .ok tree =>
    let fs1 := fsWrite (mkdirParents fs p) p .empty
    if fnameSuffix p.fname = ".yaml" then
      (fsWrite fs1 p (.doc tree), .ok ())
    else if fnameSuffix p.fname = ".json" then
      (fsWrite fs1 p (.doc tree), .ok ())
    else (fs1, .error .unsupportedFormat)

/-- A network section whose fields conform to the declared schema types. -/
structure TNetwork where
  topology_type : String
  num_devices : ℤ
  min_bandwidth : Pfloat
  max_bandwidth : Pfloat
  edge_probability : Pfloat
  seed : Option ℤ

/-- A resource section whose fields conform to the declared schema types. -/
structure TResource where
  memory_mu : Pfloat
  memory_sigma : Pfloat
  memory_min : Pfloat
  memory_max : Pfloat
  compute_mu : Pfloat
  compute_sigma : Pfloat
  compute_min : Pfloat
  compute_max : Pfloat
  seed : Option ℤ

/-- A workload section whose fields conform to the declared schema types. -/
structure TWorkload where
  model_type : WorkloadType
  initial_sequence_lengths : List ℤ
  generation_steps : List ℤ
  precision_bytes : ℤ
  seed : Option ℤ

/-- An algorithm section whose fields conform to the declared schema types. -/
structure TAlgorithm where
  migration_threshold : Pfloat
  backtrack_limit : ℤ
  cache_placement_strategy : String
  enable_dynamic_adjustment : Bool

/-- An experiment section whose fields conform to the declared schema types. -/
structure TExperiment where
  name : String
  description : String
  num_runs : ℤ
  checkpoint_interval : ℤ
  time_limit : Pfloat
  metrics_output_dir : String
  save_intermediate : Bool

/-- A configuration conforming to the typed schema of the spec's data
model. -/
structure TypedConfig where
  network : TNetwork
  resources : TResource
  workload : TWorkload
  algorithm : TAlgorithm
  experiment : TExperiment

/-- Optional integer seed as a runtime value. -/
def seedVal : Option ℤ → Value
  | some n => .vint n
  | none => .vnone

/-- The runtime configuration denoted by a schema-conforming one. -/
def toDyn (t : TypedConfig) : SimulationConfig :=
  ⟨⟨.vstr t.network.topology_type, .vint t.network.num_devices,
    .vfloat t.network.min_bandwidth, .vfloat t.network.max_bandwidth,
    .vfloat t.network.edge_probability, seedVal t.network.seed⟩,
   ⟨.vfloat t.resources.memory_mu, .vfloat t.resources.memory_sigma,
    .vfloat t.resources.memory_min, .vfloat t.resources.memory_max,
    .vfloat t.resources.compute_mu, .vfloat t.resources.compute_sigma,
    .vfloat t.resources.compute_min, .vfloat t.resources.compute_max,
    seedVal t.resources.seed⟩,
   ⟨.venum t.workload.model_type,
    .vlist (t.workload.initial_sequence_lengths.map Value.vint),
    .vlist (t.workload.generation_steps.map Value.vint),
    .vint t.workload.precision_bytes, seedVal t.workload.seed⟩,
   ⟨.vfloat t.algorithm.migration_threshold, .vint t.algorithm.backtrack_limit,
    .vstr t.algorithm.cache_placement_strategy,
    .vbool t.algorithm.enable_dynamic_adjustment⟩,
   ⟨.vstr t.experiment.name, .vstr t.experiment.description,
    .vint t.experiment.num_runs, .vint t.experiment.checkpoint_interval,
    .vfloat t.experiment.time_limit, .vstr t.experiment.metrics_output_dir,
    .vbool t.experiment.save_intermediate⟩⟩

/-- The spec's §3 invariant list for a configuration, as one proposition:
range pairs satisfy `min ≤ max`, declared positive quantities are strictly
positive, probabilities and thresholds lie in `[0, 1]`, and the two workload
sequences are non-empty with only positive entries. -/
def InvariantsOk (t : TypedConfig) : Prop :=
  0 < t.network.num_devices ∧
  Pfloat.finite 0 < t.network.min_bandwidth ∧
  Pfloat.finite 0 < t.network.max_bandwidth ∧
  t.network.min_bandwidth ≤ t.network.max_bandwidth ∧
  Pfloat.finite 0 ≤ t.network.edge_probability ∧
  t.network.edge_probability ≤ Pfloat.finite 1 ∧
  Pfloat.finite 0 < t.resources.memory_min ∧
  Pfloat.finite 0 < t.resources.memory_max ∧
  Pfloat.finite 0 < t.resources.compute_min ∧
  Pfloat.finite 0 < t.resources.compute_max ∧
  t.resources.memory_min ≤ t.resources.memory_max ∧
  t.resources.compute_min ≤ t.resources.compute_max ∧
  t.workload.initial_sequence_lengths ≠ [] ∧
  t.workload.generation_steps ≠ [] ∧
  (∀ x ∈ t.workload.initial_sequence_lengths, 0 < x) ∧
  (∀ x ∈ t.workload.generation_steps, 0 < x) ∧
  0 < t.workload.precision_bytes ∧
  Pfloat.finite 0 ≤ t.algorithm.migration_threshold ∧
  t.algorithm.migration_threshold ≤ Pfloat.finite 1 ∧
  0 < t.algorithm.backtrack_limit ∧
  0 < t.experiment.num_runs ∧
  0 < t.experiment.checkpoint_interval ∧
  Pfloat.finite 0 < t.experiment.time_limit

instance (t : TypedConfig) : Decidable (InvariantsOk t) := by
  unfold InvariantsOk; infer_instance

/-- The spec's §3 predicates in the documented evaluation order (grouped
Network → Resources → Workload → Algorithm → Experiment, each entry `true`
when its predicate holds). -/
def specChecks (t : TypedConfig) : List Bool :=
  [decide (0 < t.network.num_devices),
   Pfloat.ltb (.finite 0) t.network.min_bandwidth,
   Pfloat.ltb (.finite 0) t.network.max_bandwidth,
   Pfloat.leb t.network.min_bandwidth t.network.max_bandwidth,
   Pfloat.leb (.finite 0) t.network.edge_probability &&
     Pfloat.leb t.network.edge_probability (.finite 1),
   Pfloat.ltb (.finite 0) t.resources.memory_min,
   Pfloat.ltb (.finite 0) t.resources.memory_max,
   Pfloat.ltb (.finite 0) t.resources.compute_min,
   Pfloat.ltb (.finite 0) t.resources.compute_max,
   Pfloat.leb t.resources.memory_min t.resources.memory_max,
   Pfloat.leb t.resources.compute_min t.resources.compute_max,
   !t.workload.initial_sequence_lengths.isEmpty,
   !t.workload.generation_steps.isEmpty,
   t.workload.initial_sequence_lengths.all (fun x => decide (0 < x)),
   t.workload.generation_steps.all (fun x => decide (0 < x)),
   decide (0 < t.workload.precision_bytes),
   Pfloat.leb (.finite 0) t.algorithm.migration_threshold &&
     Pfloat.leb t.algorithm.migration_threshold (.finite 1),
   decide (0 < t.algorithm.backtrack_limit),
   decide (0 < t.experiment.num_runs),
   decide (0 < t.experiment.checkpoint_interval),
   Pfloat.ltb (.finite 0) t.experiment.time_limit]

/-- Evaluate an ordered list of predicate outcomes, returning `false` at the
first failing predicate and `true` when none fails. -/
def allInOrder : List Bool → Bool
  | [] => true
  | b :: r => if b then allInOrder r else false

/-- The schema-conforming default configuration produced by
`create_default_config`. -/
def typedDefault : TypedConfig :=
  ⟨⟨"edge_cluster", 8, .finite 1, .finite 10, .finite ratP3, none⟩,
   ⟨.finite 2, .finite ratP5, .finite 1, .finite 16, .finite 5,
    .finite ratP5, .finite 1, .finite 32, none⟩,
   ⟨.SMALL, [128, 256, 512], [32, 64, 128], 4, none⟩,
   ⟨.finite ratP9, 100, "colocated", true⟩,
   ⟨"default_experiment", "Default experiment configuration", 1, 10, .pinf,
    "results", false⟩⟩

/-- The generic tree `to_dict` produces for a schema-conforming
configuration. -/
def treeOf (t : TypedConfig) : Value :=
  .vdict [
    ("network", .vdict [
      ("topology_type", .vstr t.network.topology_type),
      ("num_devices", .vint t.network.num_devices),
      ("min_bandwidth", .vfloat t.network.min_bandwidth),
      ("max_bandwidth", .vfloat t.network.max_bandwidth),
      ("edge_probability", .vfloat t.network.edge_probability),
      ("seed", seedVal t.network.seed)]),
    ("resources", .vdict [
      ("memory_mu", .vfloat t.resources.memory_mu),
      ("memory_sigma", .vfloat t.resources.memory_sigma),
      ("memory_min", .vfloat t.resources.memory_min),
      ("memory_max", .vfloat t.resources.memory_max),
      ("compute_mu", .vfloat t.resources.compute_mu),
      ("compute_sigma", .vfloat t.resources.compute_sigma),
      ("compute_min", .vfloat t.resources.compute_min),
      ("compute_max", .vfloat t.resources.compute_max),
      ("seed", seedVal t.resources.seed)]),
    ("workload", .vdict [
      ("model_type", .vstr t.workload.model_type.name),
      ("initial_sequence_lengths",
        .vlist (t.workload.initial_sequence_lengths.map Value.vint)),
      ("generation_steps",
        .vlist (t.workload.generation_steps.map Value.vint)),
      ("precision_bytes", .vint t.workload.precision_bytes),
      ("seed", seedVal t.workload.seed)]),
    ("algorithm", .vdict [
      ("migration_threshold", .vfloat t.algorithm.migration_threshold),
      ("backtrack_limit", .vint t.algorithm.backtrack_limit),
      ("cache_placement_strategy",
        .vstr t.algorithm.cache_placement_strategy),
      ("enable_dynamic_adjustment",
        .vbool t.algorithm.enable_dynamic_adjustment)]),
    ("experiment", .vdict [
      ("name", .vstr t.experiment.name),
      ("description", .vstr t.experiment.description),
      ("num_runs", .vint t.experiment.num_runs),
      ("checkpoint_interval", .vint t.experiment.checkpoint_interval),
      ("time_limit", .vfloat t.experiment.time_limit),
      ("metrics_output_dir", .vstr t.experiment.metrics_output_dir),
      ("save_intermediate", .vbool t.experiment.save_intermediate)])]

lemma to_dict_toDyn (t : TypedConfig) : to_dict (toDyn t) = .ok (treeOf t) := by
  obtain ⟨⟨_, _, _, _, _, _⟩, ⟨_, _, _, _, _, _, _, _, _⟩, ⟨_, _, _, _, _⟩,
    ⟨_, _, _, _⟩, ⟨_, _, _, _, _, _, _⟩⟩ := t
  rfl

lemma from_dict_treeOf (t : TypedConfig) :
    from_dict (treeOf t) = .ok (toDyn t) := by
  obtain ⟨⟨_, _, _, _, _, _⟩, ⟨_, _, _, _, _, _, _, _, _⟩, ⟨mt, _, _, _, _⟩,
    ⟨_, _, _, _⟩, ⟨_, _, _, _, _, _, _⟩⟩ := t
  cases mt <;> rfl

lemma fsLookup_write (fs : FileSystem) (p : FsPath) (c : FileContent) :
    fsLookup (fsWrite fs p c) p = some c := by
  simp [fsLookup, fsWrite, List.find?]

/-- C1.  Round-trip fidelity: decoding the encoding of a schema-conforming
configuration restores it field-for-field, and for either supported serialized
format (`.yaml` and `.json` suffixes), loading right after saving yields an
equal configuration — including the `+Infinity` experiment time limit, which
both textual forms carry losslessly.  (The registry `WorkloadType` is modelled
from the spec, and the YAML/JSON libraries are taken at their lossless
round-trip contract.) -/
theorem claim1_roundtrip (t : TypedConfig) (p : FsPath) (fs : FileSystem)
    (hfmt : fnameSuffix p.fname = ".yaml" ∨ fnameSuffix p.fname = ".json") :
    (to_dict (toDyn t)).bind from_dict = .ok (toDyn t) ∧
    (save_config (toDyn t) p fs).2 = .ok () ∧
    load_config (save_config (toDyn t) p fs).1 p = .ok (toDyn t) := by
  have hrt : (to_dict (toDyn t)).bind from_dict = .ok (toDyn t) := by
    rw [to_dict_toDyn]
    simpa [Except.bind] using from_dict_treeOf t
  refine ⟨hrt, ?_⟩
  rcases hfmt with h | h <;>
    simp [save_config, to_dict_toDyn, load_config, h, fsLookup_write,
      from_dict_treeOf]

/-- Witness for C1 at the default configuration and a concrete `.yaml`
path. -/
theorem claim1_roundtrip_witness :
    (to_dict (toDyn typedDefault)).bind from_dict = .ok (toDyn typedDefault) ∧
    (save_config (toDyn typedDefault) ⟨["cfg"], "c.yaml"⟩ emptyFS).2 =
      .ok () ∧
    load_config
      (save_config (toDyn typedDefault) ⟨["cfg"], "c.yaml"⟩ emptyFS).1
      ⟨["cfg"], "c.yaml"⟩ = .ok (toDyn typedDefault) :=
  claim1_roundtrip typedDefault ⟨["cfg"], "c.yaml"⟩ emptyFS (Or.inl (by decide))

/-- C3.  Merge changes exactly the supplied leaves: an empty override is the
identity; an override supplying only `network.num_devices = 4` leaves every
other field (including the other network fields) identical to the base; and an
override supplying a new `initial_sequence_lengths` list wholly replaces the
base list (whatever its length, rather than appending or element-wise
patching). -/
theorem claim3_merge (t : TypedConfig) (L : List ℤ) :
    merge_configs (toDyn t) [] = .ok (toDyn t) ∧
    merge_configs (toDyn t)
        [("network", .vdict [("num_devices", .vint 4)])] =
      .ok (toDyn { t with network := { t.network with num_devices := 4 } }) ∧
    merge_configs (toDyn t)
        [("workload", .vdict [("initial_sequence_lengths",
            .vlist (L.map Value.vint))])] =
      .ok (toDyn { t with workload :=
            { t.workload with initial_sequence_lengths := L } }) := by
  refine ⟨?_, ?_, ?_⟩
  · rw [merge_configs]
    simp only [to_dict_toDyn t]
    simpa [treeOf, update_dict] using from_dict_treeOf t
  · rw [merge_configs]
    simp only [to_dict_toDyn t]
    have h := from_dict_treeOf
      { t with network := { t.network with num_devices := 4 } }
    simp only [treeOf] at h ⊢
    simpa [update_dict, dGet, dSet] using h
  · rw [merge_configs]
    simp only [to_dict_toDyn t]
    have h := from_dict_treeOf
      { t with workload := { t.workload with initial_sequence_lengths := L } }
    simp only [treeOf] at h ⊢
    simpa [update_dict, dGet, dSet] using h

lemma exc_bind_ok {α β : Type} (a : α) (f : α → Except Unit β) :
    (Except.ok a >>= f : Except Unit β) = f a := rfl

lemma exc_pure {α : Type} (a : α) : (pure a : Except Unit α) = .ok a := rfl

lemma ok_ite (c x y : Bool) :
    (if c = true then (Except.ok x : Except Unit Bool) else .ok y) =
      .ok (if c = true then x else y) := by cases c <;> simp

lemma iteFalseAnd (c x : Bool) : (if c = true then x else false) = (c && x) := by
  cases c <;> simp

lemma allInOrder_nil : allInOrder [] = true := rfl

lemma allInOrder_cons (b : Bool) (l : List Bool) :
    allInOrder (b :: l) = (b && allInOrder l) := by cases b <;> simp [allInOrder]

lemma anyLeZero_four (a b c d : Pfloat) :
    anyLeZeroList [.vfloat a, .vfloat b, .vfloat c, .vfloat d] =
      .ok (a.leb (.finite 0) || (b.leb (.finite 0) ||
        (c.leb (.finite 0) || d.leb (.finite 0)))) := by
  cases ha : a.leb (.finite 0) <;> cases hb : b.leb (.finite 0) <;>
    cases hc : c.leb (.finite 0) <;> cases hd : d.leb (.finite 0) <;>
    simp [anyLeZeroList, pyLe, toPf, ha, hb, hc, hd, exc_bind_ok, exc_pure]

lemma iteNot (c r : Bool) : (if c = true then false else r) = (!c && r) := by
  cases c <;> simp

lemma int_leb_zero (n : ℤ) :
    (Pfloat.finite (n : ℚ)).leb (Pfloat.finite 0) = !decide (0 < n) := by
  simp [Pfloat.leb, Int.cast_nonpos, ← decide_not, not_lt]

lemma mapIsEmpty {α β : Type} (f : α → β) (l : List α) :
    (l.map f).isEmpty = l.isEmpty := by cases l <;> rfl

lemma anyLeZero_map_vint (l : List ℤ) :
    anyLeZeroList (l.map Value.vint) = .ok (l.any fun x => decide (x ≤ 0)) := by
  induction l with
  | nil => rfl
  | cons x r ih =>
    by_cases hx : x ≤ 0 <;>
      simp [anyLeZeroList, pyLe, toPf, Pfloat.leb, ih, hx, Int.cast_nonpos,
        exc_bind_ok, exc_pure]

lemma any_nonpos (l : List ℤ) :
    (l.any fun x => decide (x ≤ 0)) = !(l.all fun x => decide (0 < x)) := by
  induction l with
  | nil => rfl
  | cons x r ih => simp [List.any_cons, List.all_cons, ih, not_lt, ← decide_not]

lemma validate_toDyn (t : TypedConfig) :
    validate_config (toDyn t) = allInOrder (specChecks t) := by
  obtain ⟨⟨tt, nd, mb, xb, ep, sd⟩, ⟨m1, m2, m3, m4, c1, c2, c3, c4, sd2⟩,
    ⟨mt, isl, gs, pb, sd3⟩, ⟨mth, bl, cps, eda⟩,
    ⟨nm, ds, nr, ci, tl, mo, si⟩⟩ := t
  simp only [validate_config, checksBody, toDyn, specChecks, pyLe, pyGt, pyLt,
    pyBetweenZeroOne, pyAnyLeZero, pyIter, pyTruthy, toPf, Pfloat.ltb,
    bind, Except.bind, pure, Except.pure, exc_bind_ok, ok_ite, iteFalseAnd,
    anyLeZero_four, anyLeZero_map_vint, Int.cast_zero, Int.cast_one]
  simp only [runVal, iteNot, allInOrder_cons, allInOrder_nil]
  simp only [int_leb_zero, mapIsEmpty, any_nonpos, Bool.not_or, Bool.not_not,
    Bool.and_assoc, Bool.and_true]

lemma pf_le_def (a b : Pfloat) : a ≤ b ↔ a.leb b = true := Iff.rfl

lemma pf_lt_def (a b : Pfloat) : a < b ↔ a.ltb b = true := Iff.rfl

lemma specChecks_iff (t : TypedConfig) :
    allInOrder (specChecks t) = true ↔ InvariantsOk t := by
  obtain ⟨⟨tt, nd, mb, xb, ep, sd⟩, ⟨m1, m2, m3, m4, c1, c2, c3, c4, sd2⟩,
    ⟨mt, isl, gs, pb, sd3⟩, ⟨mth, bl, cps, eda⟩,
    ⟨nm, ds, nr, ci, tl, mo, si⟩⟩ := t
  simp only [specChecks, allInOrder_cons, allInOrder_nil, InvariantsOk,
    pf_le_def, pf_lt_def]
  simp [List.isEmpty_iff, List.all_eq_true, and_assoc]

/-- C2.  For every schema-conforming configuration, the Validator computes
exactly the ordered first-failure evaluation of the spec's §3 predicates,
grouped per-section in the order Network → Resources → Workload → Algorithm →
Experiment (returning `false` at the first failing predicate), and it returns
`false` if and only if at least one §3 invariant is violated. -/
theorem claim2_validate (t : TypedConfig) :
    validate_config (toDyn t) = allInOrder (specChecks t) ∧
    (validate_config (toDyn t) = false ↔ ¬ InvariantsOk t) := by
  refine ⟨validate_toDyn t, ?_⟩
  rw [validate_toDyn t, ← specChecks_iff t]
  cases allInOrder (specChecks t) <;> simp

/-- C8.  The default configuration has `num_devices = 8`,
`min_bandwidth = 1.0`, `max_bandwidth = 10.0` and validates; mutating a copy
to `max_bandwidth = 0.5` (now below `min_bandwidth`) makes validation return
`false`. -/
theorem claim8_default :
    create_default_config.network.num_devices = .vint 8 ∧
    create_default_config.network.min_bandwidth = .vfloat (.finite 1) ∧
    create_default_config.network.max_bandwidth = .vfloat (.finite 10) ∧
    validate_config create_default_config = true ∧
    validate_config { create_default_config with network :=
      { create_default_config.network with
        max_bandwidth := .vfloat (.finite ratP5) } } = false := by
  refine ⟨rfl, rfl, rfl, ?_, ?_⟩ <;> decide

/-- A copy of a configuration with every field the Validator is claimed to
ignore replaced: the topology kind, the cache-placement strategy, the
experiment name and description, the metrics output directory, and the four
memory/compute mu/sigma distribution parameters. -/
def withFreeFields (t : TypedConfig) (tt cps nm ds mo : String)
    (mmu msig cmu csig : Pfloat) : TypedConfig :=
  { t with
    network := { t.network with topology_type := tt },
    resources := { t.resources with
                    memory_mu := mmu,
                    memory_sigma := msig,
                    compute_mu := cmu,
                    compute_sigma := csig },
    algorithm := { t.algorithm with cache_placement_strategy := cps },
    experiment := { t.experiment with
                     name := nm,
                     description := ds,
                     metrics_output_dir := mo } }

/-- C10.  The Validator inspects no string field and no mu/sigma parameter:
any configuration satisfying the numeric and sequence invariants validates,
whatever its topology kind, cache-placement strategy, experiment name and
description, metrics output directory, and memory/compute mu/sigma values. -/
theorem claim10_strings_ignored (t : TypedConfig) (h : InvariantsOk t)
    (tt cps nm ds mo : String) (mmu msig cmu csig : Pfloat) :
    validate_config (toDyn (withFreeFields t tt cps nm ds mo
      mmu msig cmu csig)) = true := by
  have hs : specChecks (withFreeFields t tt cps nm ds mo mmu msig cmu csig) =
      specChecks t := by
    obtain ⟨⟨_, _, _, _, _, _⟩, ⟨_, _, _, _, _, _, _, _, _⟩, ⟨_, _, _, _, _⟩,
      ⟨_, _, _, _⟩, ⟨_, _, _, _, _, _, _⟩⟩ := t
    rfl
  have hinv : InvariantsOk (withFreeFields t tt cps nm ds mo
      mmu msig cmu csig) := by
    rw [← specChecks_iff, hs, specChecks_iff]; exact h
  rw [validate_toDyn, specChecks_iff]
  exact hinv

/-- Witness for C10: the default configuration with nonsense strings and
negative-infinite mu/sigma parameters still validates. -/
theorem claim10_strings_ignored_witness :
    validate_config (toDyn (withFreeFields typedDefault "no_such_topology"
      "no_such_strategy" "" "" "" .ninf .ninf .ninf .ninf)) = true :=
  claim10_strings_ignored typedDefault (by decide) "no_such_topology"
    "no_such_strategy" "" "" "" .ninf .ninf .ninf .ninf

/-- A structurally complete configuration holding a malformed value: the
device count is the string `"eight"`, so the very first comparison of the
Validator raises a `TypeError` inside the `try` block. -/
def faultyConfig : SimulationConfig :=
  { create_default_config with network :=
    { create_default_config.network with num_devices := .vstr "eight" } }

/-- C7.  The Validator is a total boolean function: a fault raised while
evaluating the checks (for instance a comparison on a malformed value) is
absorbed into the result `false` rather than propagated, a normal outcome is
returned unchanged, and faulting inputs actually exist.  Totality,
determinism and purity hold by construction of the embedding:
`validate_config` is a total function into `Bool`. -/
theorem claim7_never_raises :
    (∀ c : SimulationConfig, checksBody c = .error () →
      validate_config c = false) ∧
    (∀ (c : SimulationConfig) (b : Bool), checksBody c = .ok b →
      validate_config c = b) ∧
    (∃ c : SimulationConfig, checksBody c = .error ()) := by
  refine ⟨fun c h => ?_, fun c b h => ?_, ⟨faultyConfig, rfl⟩⟩ <;>
    simp [validate_config, h, runVal]

/-- Witness for C7: the malformed configuration faults inside the checks and
the Validator returns `false` for it. -/
theorem claim7_never_raises_witness :
    validate_config faultyConfig = false :=
  claim7_never_raises.1 faultyConfig rfl

/-- Counterexample to C5 as stated: the `.yml` suffix is claimed to select
the YAML form, but both saving to and loading an existing `config.yml` fail
with the unsupported-format error (the source accepts only the exact
suffixes `.yaml` and `.json`). -/
theorem claim5_counterexample :
    (save_config create_default_config ⟨[], "config.yml"⟩ emptyFS).2 =
      .error .unsupportedFormat ∧
    load_config (fsWrite emptyFS ⟨[], "config.yml"⟩ (.doc (treeOf typedDefault)))
      ⟨[], "config.yml"⟩ = .error .unsupportedFormat := by
  constructor <;> rfl

/-- C5 (amended).  `load` and `save` accept exactly the suffixes `.yaml` and
`.json` (`.yml` is rejected like any other suffix): saving under either
accepted suffix succeeds, saving under any other suffix fails with
`UnsupportedFormat`, and loading an existing path with any other suffix fails
with `UnsupportedFormat`. -/
theorem claim5_amended (t : TypedConfig) (p q : FsPath) (fs : FileSystem)
    (hp : fnameSuffix p.fname = ".yaml" ∨ fnameSuffix p.fname = ".json")
    (hq1 : fnameSuffix q.fname ≠ ".yaml")
    (hq2 : fnameSuffix q.fname ≠ ".json") :
    (save_config (toDyn t) p fs).2 = .ok () ∧
    (save_config (toDyn t) q fs).2 = .error .unsupportedFormat ∧
    (∀ content, fsLookup fs q = some content →
      load_config fs q = .error .unsupportedFormat) := by
  refine ⟨?_, ?_, fun content hc => ?_⟩
  · rcases hp with h | h <;> simp [save_config, to_dict_toDyn, h]
  · simp [save_config, to_dict_toDyn, hq1, hq2]
  · simp [load_config, hc, hq1, hq2]

/-- Witness for the amended C5 at concrete paths `a.yaml` and `a.yml`. -/
theorem claim5_amended_witness :
    (save_config (toDyn typedDefault) ⟨[], "a.yaml"⟩ emptyFS).2 = .ok () ∧
    (save_config (toDyn typedDefault) ⟨[], "a.yml"⟩ emptyFS).2 =
      .error .unsupportedFormat ∧
    (∀ content,
      fsLookup (fsWrite emptyFS ⟨[], "a.yml"⟩ (.doc .vnone)) ⟨[], "a.yml"⟩ =
        some content →
      load_config (fsWrite emptyFS ⟨[], "a.yml"⟩ (.doc .vnone))
        ⟨[], "a.yml"⟩ = .error .unsupportedFormat) := by
  have h := claim5_amended typedDefault ⟨[], "a.yaml"⟩ ⟨[], "a.yml"⟩
    (fsWrite emptyFS ⟨[], "a.yml"⟩ (.doc .vnone)) (Or.inl (by decide))
    (by decide) (by decide)
  exact ⟨by rfl, h.2.1, h.2.2⟩

/-- Counterexample to C6 as stated: on a path ending in `.txt` that does not
exist, `load` fails with `FileNotFound`, not `UnsupportedFormat` — the
existence check precedes the suffix check, so the failure is not decided by
the suffix alone. -/
theorem claim6_counterexample :
    load_config emptyFS ⟨[], "notes.txt"⟩ = .error .fileNotFound ∧
    Err.fileNotFound ≠ Err.unsupportedFormat := ⟨rfl, by decide⟩

/-- C6 (amended).  For a path ending in `.txt`, `load` fails with
`UnsupportedFormat` whenever the path exists — whatever the file's content,
which is never read — while a missing path fails with `FileNotFound` first
(the suffix is only examined after the existence check and `open`). -/
theorem claim6_amended (p : FsPath) (fs : FileSystem) (content : FileContent)
    (hsuf : fnameSuffix p.fname = ".txt") :
    (fsLookup fs p = some content →
      load_config fs p = .error .unsupportedFormat) ∧
    (fsLookup fs p = none → load_config fs p = .error .fileNotFound) := by
  constructor <;> intro h <;> simp [load_config, h, hsuf]

/-- Witness for the amended C6 at a concrete existing `.txt` file. -/
theorem claim6_amended_witness :
    load_config (fsWrite emptyFS ⟨[], "a.txt"⟩ (.doc .vnone)) ⟨[], "a.txt"⟩ =
      .error .unsupportedFormat :=
  (claim6_amended ⟨[], "a.txt"⟩ (fsWrite emptyFS ⟨[], "a.txt"⟩ (.doc .vnone))
    (.doc .vnone) (by decide)).1 rfl

/-- C9.  A failed save is not atomic: for an unsupported suffix, `save`
raises only after the parent directory has been created and the path opened
for writing, so the error leaves a truncated (empty) file at the path. -/
theorem claim9_save_not_atomic (t : TypedConfig) (p : FsPath)
    (fs : FileSystem) (h1 : fnameSuffix p.fname ≠ ".yaml")
    (h2 : fnameSuffix p.fname ≠ ".json") :
    (save_config (toDyn t) p fs).2 = .error .unsupportedFormat ∧
    fsLookup (save_config (toDyn t) p fs).1 p = some .empty ∧
    p.dir ∈ (save_config (toDyn t) p fs).1.dirs := by
  simp [save_config, to_dict_toDyn, h1, h2, mkdirParents, fsWrite, fsLookup,
    List.find?]

/-- Witness for C9 at the default configuration and a concrete `.txt`
path. -/
theorem claim9_save_not_atomic_witness :
    (save_config (toDyn typedDefault) ⟨["results"], "config.txt"⟩
      emptyFS).2 = .error .unsupportedFormat ∧
    fsLookup (save_config (toDyn typedDefault) ⟨["results"], "config.txt"⟩
      emptyFS).1 ⟨["results"], "config.txt"⟩ = some .empty ∧
    ["results"] ∈ (save_config (toDyn typedDefault)
      ⟨["results"], "config.txt"⟩ emptyFS).1.dirs :=
  claim9_save_not_atomic typedDefault ⟨["results"], "config.txt"⟩ emptyFS
    (by decide) (by decide)

lemma err_bind_ok {α β : Type} (a : α) (f : α → Except Err β) :
    (Except.ok a >>= f) = f a := rfl

lemma err_bind_error {α β : Type} (e : Err) (f : α → Except Err β) :
    ((Except.error e : Except Err α) >>= f) = .error e := rfl

/-- Remove a key from a dictionary (`del d[k]` for building test trees). -/
def dRemove (d : List (String × Value)) (k : String) : List (String × Value) :=
  d.filter (fun kv => kv.1 ≠ k)

/-- A generic tree with one field removed from one section's sub-mapping. -/
def eraseField (v : Value) (s k : String) : Value :=
  match v with
  | .vdict d => .vdict (d.map (fun kv =>
      if kv.1 = s then
        (kv.1, match kv.2 with
               | .vdict sd => Value.vdict (dRemove sd k)
               | w => w)
      else kv))
  | w => w

/-- A generic tree with one field of one section's sub-mapping set (replacing
an existing key or appending a new one). -/
def setField (v : Value) (s k : String) (x : Value) : Value :=
  match v with
  | .vdict d => .vdict (d.map (fun kv =>
      if kv.1 = s then
        (kv.1, match kv.2 with
               | .vdict sd => Value.vdict (dSet sd k x)
               | w => w)
      else kv))
  | w => w

/-- The required (default-less) fields of each section, as section/field
pairs. -/
def requiredFields : List (String × String) :=
  [("network", "topology_type"), ("network", "num_devices"),
   ("network", "min_bandwidth"), ("network", "max_bandwidth"),
   ("resources", "memory_mu"), ("resources", "memory_sigma"),
   ("resources", "memory_min"), ("resources", "memory_max"),
   ("resources", "compute_mu"), ("resources", "compute_sigma"),
   ("resources", "compute_min"), ("resources", "compute_max"),
   ("workload", "model_type"), ("workload", "initial_sequence_lengths"),
   ("workload", "generation_steps"),
   ("experiment", "name"), ("experiment", "description")]

/-- Counterexample to C4 as stated: a structurally complete generic tree with
a mistyped leaf — `num_devices` is the string `"eight"` where an integer is
declared — decodes successfully (the constructors perform no leaf type
checking), contradicting the claim that decode fails on mistyped fields. -/
theorem claim4_counterexample :
    from_dict (.vdict [
      ("network", .vdict [
        ("topology_type", .vstr "edge_cluster"),
        ("num_devices", .vstr "eight"),
        ("min_bandwidth", .vfloat (.finite 1)),
        ("max_bandwidth", .vfloat (.finite 10)),
        ("edge_probability", .vfloat (.finite ratP3)),
        ("seed", .vnone)]),
      ("resources", .vdict [
        ("memory_mu", .vfloat (.finite 2)),
        ("memory_sigma", .vfloat (.finite ratP5)),
        ("memory_min", .vfloat (.finite 1)),
        ("memory_max", .vfloat (.finite 16)),
        ("compute_mu", .vfloat (.finite 5)),
        ("compute_sigma", .vfloat (.finite ratP5)),
        ("compute_min", .vfloat (.finite 1)),
        ("compute_max", .vfloat (.finite 32)),
        ("seed", .vnone)]),
      ("workload", .vdict [
        ("model_type", .vstr "SMALL"),
        ("initial_sequence_lengths", .vlist [.vint 128, .vint 256,
          .vint 512]),
        ("generation_steps", .vlist [.vint 32, .vint 64, .vint 128]),
        ("precision_bytes", .vint 4),
        ("seed", .vnone)]),
      ("algorithm", .vdict [
        ("migration_threshold", .vfloat (.finite ratP9)),
        ("backtrack_limit", .vint 100),
        ("cache_placement_strategy", .vstr "colocated"),
        ("enable_dynamic_adjustment", .vbool true)]),
      ("experiment", .vdict [
        ("name", .vstr "default_experiment"),
        ("description", .vstr "Default experiment configuration"),
        ("num_runs", .vint 1),
        ("checkpoint_interval", .vint 10),
        ("time_limit", .vfloat .pinf),
        ("metrics_output_dir", .vstr "results"),
        ("save_intermediate", .vbool false)])]) =
    .ok { create_default_config with network :=
      { create_default_config.network with
        num_devices := .vstr "eight" } } := by
  rfl

lemma decode_missing_required (t : TypedConfig) (s k : String)
    (h : (s, k) ∈ requiredFields) :
    from_dict (eraseField (treeOf t) s k) = .error (.missingField k) := by
  obtain ⟨⟨tt, nd, mb, xb, ep, sd⟩, ⟨m1, m2, m3, m4, c1, c2, c3, c4, sd2⟩,
    ⟨mt, isl, gs, pb, sd3⟩, ⟨mth, bl, cps, eda⟩,
    ⟨nm, ds, nr, ci, tl, mo, si⟩⟩ := t
  cases mt <;> fin_cases h <;> rfl

lemma decode_unknown_enum (t : TypedConfig) (s : String)
    (h : workloadTypeFromName s = none) :
    from_dict (setField (treeOf t) "workload" "model_type" (.vstr s)) =
      .error (.unknownEnumMember s) := by
  obtain ⟨⟨tt, nd, mb, xb, ep, sd⟩, ⟨m1, m2, m3, m4, c1, c2, c3, c4, sd2⟩,
    ⟨mt, isl, gs, pb, sd3⟩, ⟨mth, bl, cps, eda⟩,
    ⟨nm, ds, nr, ci, tl, mo, si⟩⟩ := t
  simp [setField, treeOf, dSet, from_dict, getSection, dGet, mkNetwork,
    mkResources, mkWorkload, checkKeys, reqField, optField, lookupWT, h,
    err_bind_ok, err_bind_error, bind, Except.bind, pure, Except.pure]

lemma decode_extra_network (t : TypedConfig) (k : String) (x : Value)
    (h : k ∉ ["topology_type", "num_devices", "min_bandwidth",
      "max_bandwidth", "edge_probability", "seed"]) :
    from_dict (setField (treeOf t) "network" k x) =
      .error (.unexpectedField k) := by
  obtain ⟨⟨tt, nd, mb, xb, ep, sd⟩, ⟨m1, m2, m3, m4, c1, c2, c3, c4, sd2⟩,
    ⟨mt, isl, gs, pb, sd3⟩, ⟨mth, bl, cps, eda⟩,
    ⟨nm, ds, nr, ci, tl, mo, si⟩⟩ := t
  simp only [List.mem_cons, List.mem_singleton, not_or] at h
  obtain ⟨h1, h2, h3, h4, h5, h6, -⟩ := h
  simp [setField, treeOf, dSet, from_dict, getSection, dGet, mkNetwork,
    checkKeys, reqField, optField, err_bind_ok, err_bind_error, bind,
    Except.bind, pure, Except.pure, Ne.symm h1, Ne.symm h2, Ne.symm h3,
    Ne.symm h4, Ne.symm h5, Ne.symm h6, h1, h2, h3, h4, h5, h6]

lemma decode_extra_resources (t : TypedConfig) (k : String) (x : Value)
    (h : k ∉ ["memory_mu", "memory_sigma", "memory_min", "memory_max",
      "compute_mu", "compute_sigma", "compute_min", "compute_max", "seed"]) :
    from_dict (setField (treeOf t) "resources" k x) =
      .error (.unexpectedField k) := by
  obtain ⟨⟨tt, nd, mb, xb, ep, sd⟩, ⟨m1, m2, m3, m4, c1, c2, c3, c4, sd2⟩,
    ⟨mt, isl, gs, pb, sd3⟩, ⟨mth, bl, cps, eda⟩,
    ⟨nm, ds, nr, ci, tl, mo, si⟩⟩ := t
  simp only [List.mem_cons, List.mem_singleton, not_or] at h
  obtain ⟨h1, h2, h3, h4, h5, h6, h7, h8, h9, -⟩ := h
  simp [setField, treeOf, dSet, from_dict, getSection, dGet, mkNetwork,
    mkResources, checkKeys, reqField, optField, err_bind_ok, err_bind_error,
    bind, Except.bind, pure, Except.pure, Ne.symm h1, Ne.symm h2, Ne.symm h3,
    Ne.symm h4, Ne.symm h5, Ne.symm h6, Ne.symm h7, Ne.symm h8, Ne.symm h9,
    h1, h2, h3, h4, h5, h6, h7, h8, h9]

lemma decode_extra_workload (t : TypedConfig) (k : String) (x : Value)
    (h : k ∉ ["model_type", "initial_sequence_lengths", "generation_steps",
      "precision_bytes", "seed"]) :
    from_dict (setField (treeOf t) "workload" k x) =
      .error (.unexpectedField k) := by
  obtain ⟨⟨tt, nd, mb, xb, ep, sd⟩, ⟨m1, m2, m3, m4, c1, c2, c3, c4, sd2⟩,
    ⟨mt, isl, gs, pb, sd3⟩, ⟨mth, bl, cps, eda⟩,
    ⟨nm, ds, nr, ci, tl, mo, si⟩⟩ := t
  simp only [List.mem_cons, List.mem_singleton, not_or] at h
  obtain ⟨h1, h2, h3, h4, h5, -⟩ := h
  cases mt <;>
  simp [setField, treeOf, dSet, from_dict, getSection, dGet, mkNetwork,
    mkResources, mkWorkload, workloadTypeFromName, WorkloadType.name,
    lookupWT, checkKeys, reqField, optField, err_bind_ok, err_bind_error,
    bind, Except.bind, pure, Except.pure, Ne.symm h1, Ne.symm h2, Ne.symm h3,
    Ne.symm h4, Ne.symm h5, h1, h2, h3, h4, h5]

lemma decode_extra_algorithm (t : TypedConfig) (k : String) (x : Value)
    (h : k ∉ ["migration_threshold", "backtrack_limit",
      "cache_placement_strategy", "enable_dynamic_adjustment"]) :
    from_dict (setField (treeOf t) "algorithm" k x) =
      .error (.unexpectedField k) := by
  obtain ⟨⟨tt, nd, mb, xb, ep, sd⟩, ⟨m1, m2, m3, m4, c1, c2, c3, c4, sd2⟩,
    ⟨mt, isl, gs, pb, sd3⟩, ⟨mth, bl, cps, eda⟩,
    ⟨nm, ds, nr, ci, tl, mo, si⟩⟩ := t
  simp only [List.mem_cons, List.mem_singleton, not_or] at h
  obtain ⟨h1, h2, h3, h4, -⟩ := h
  cases mt <;>
  simp [setField, treeOf, dSet, from_dict, getSection, dGet, mkNetwork,
    mkResources, mkWorkload, mkAlgorithm, workloadTypeFromName,
    WorkloadType.name, lookupWT, checkKeys, reqField, optField, err_bind_ok,
    err_bind_error, bind, Except.bind, pure, Except.pure, Ne.symm h1,
    Ne.symm h2, Ne.symm h3, Ne.symm h4, h1, h2, h3, h4]

lemma decode_extra_experiment (t : TypedConfig) (k : String) (x : Value)
    (h : k ∉ ["name", "description", "num_runs", "checkpoint_interval",
      "time_limit", "metrics_output_dir", "save_intermediate"]) :
    from_dict (setField (treeOf t) "experiment" k x) =
      .error (.unexpectedField k) := by
  obtain ⟨⟨tt, nd, mb, xb, ep, sd⟩, ⟨m1, m2, m3, m4, c1, c2, c3, c4, sd2⟩,
    ⟨mt, isl, gs, pb, sd3⟩, ⟨mth, bl, cps, eda⟩,
    ⟨nm, ds, nr, ci, tl, mo, si⟩⟩ := t
  simp only [List.mem_cons, List.mem_singleton, not_or] at h
  obtain ⟨h1, h2, h3, h4, h5, h6, h7, -⟩ := h
  cases mt <;>
  simp [setField, treeOf, dSet, from_dict, getSection, dGet, mkNetwork,
    mkResources, mkWorkload, mkAlgorithm, mkExperiment, workloadTypeFromName,
    WorkloadType.name, lookupWT, checkKeys, reqField, optField, err_bind_ok,
    err_bind_error, bind, Except.bind, pure, Except.pure, Ne.symm h1,
    Ne.symm h2, Ne.symm h3, Ne.symm h4, Ne.symm h5, Ne.symm h6, Ne.symm h7,
    h1, h2, h3, h4, h5, h6, h7]

/-- C4 (amended).  Decode fails only on structural problems, with
distinguishable errors: removing any required field from any section's
sub-mapping fails with `MissingField` naming that field; a workload-model
name outside the registry fails with `UnknownEnumMember`; an extra field in
any section fails with the unexpected-keyword error; but leaf values are not
type-checked (the counterexample shows a mistyped field decoding
successfully), and no semantic validation is performed: every schema-shaped
tree decodes successfully, whatever its values. -/
theorem claim4_amended :
    (∀ (t : TypedConfig) (s k : String), (s, k) ∈ requiredFields →
      from_dict (eraseField (treeOf t) s k) = .error (.missingField k)) ∧
    (∀ (t : TypedConfig) (s : String), workloadTypeFromName s = none →
      from_dict (setField (treeOf t) "workload" "model_type" (.vstr s)) =
        .error (.unknownEnumMember s)) ∧
    (∀ (t : TypedConfig) (k : String) (x : Value),
      k ∉ ["topology_type", "num_devices", "min_bandwidth", "max_bandwidth",
        "edge_probability", "seed"] →
      from_dict (setField (treeOf t) "network" k x) =
        .error (.unexpectedField k)) ∧
    (∀ (t : TypedConfig) (k : String) (x : Value),
      k ∉ ["memory_mu", "memory_sigma", "memory_min", "memory_max",
        "compute_mu", "compute_sigma", "compute_min", "compute_max",
        "seed"] →
      from_dict (setField (treeOf t) "resources" k x) =
        .error (.unexpectedField k)) ∧
    (∀ (t : TypedConfig) (k : String) (x : Value),
      k ∉ ["model_type", "initial_sequence_lengths", "generation_steps",
        "precision_bytes", "seed"] →
      from_dict (setField (treeOf t) "workload" k x) =
        .error (.unexpectedField k)) ∧
    (∀ (t : TypedConfig) (k : String) (x : Value),
      k ∉ ["migration_threshold", "backtrack_limit",
        "cache_placement_strategy", "enable_dynamic_adjustment"] →
      from_dict (setField (treeOf t) "algorithm" k x) =
        .error (.unexpectedField k)) ∧
    (∀ (t : TypedConfig) (k : String) (x : Value),
      k ∉ ["name", "description", "num_runs", "checkpoint_interval",
        "time_limit", "metrics_output_dir", "save_intermediate"] →
      from_dict (setField (treeOf t) "experiment" k x) =
        .error (.unexpectedField k)) ∧
    (∀ t : TypedConfig, from_dict (treeOf t) = .ok (toDyn t)) :=
  ⟨decode_missing_required, decode_unknown_enum, decode_extra_network,
   decode_extra_resources, decode_extra_workload, decode_extra_algorithm,
   decode_extra_experiment, from_dict_treeOf⟩

/-- Witness for the amended C4 at the default tree: a removed required field,
the spec's `"NONEXISTENT"` enum scenario, one extra field per section, and a
successful decode with no semantic validation. -/
theorem claim4_amended_witness :
    from_dict (eraseField (treeOf typedDefault) "experiment" "name") =
      .error (.missingField "name") ∧
    from_dict (setField (treeOf typedDefault) "workload" "model_type"
      (.vstr "NONEXISTENT")) = .error (.unknownEnumMember "NONEXISTENT") ∧
    from_dict (setField (treeOf typedDefault) "network" "bandwidth"
      (.vint 3)) = .error (.unexpectedField "bandwidth") ∧
    from_dict (setField (treeOf typedDefault) "resources" "disk_mu"
      (.vint 3)) = .error (.unexpectedField "disk_mu") ∧
    from_dict (setField (treeOf typedDefault) "workload" "sequence"
      (.vint 3)) = .error (.unexpectedField "sequence") ∧
    from_dict (setField (treeOf typedDefault) "algorithm" "threshold"
      (.vint 3)) = .error (.unexpectedField "threshold") ∧
    from_dict (setField (treeOf typedDefault) "experiment" "notes"
      (.vint 3)) = .error (.unexpectedField "notes") ∧
    from_dict (treeOf typedDefault) = .ok (toDyn typedDefault) :=
  ⟨claim4_amended.1 typedDefault "experiment" "name" (by decide),
   claim4_amended.2.1 typedDefault "NONEXISTENT" (by decide),
   claim4_amended.2.2.1 typedDefault "bandwidth" (.vint 3) (by decide),
   claim4_amended.2.2.2.1 typedDefault "disk_mu" (.vint 3) (by decide),
   claim4_amended.2.2.2.2.1 typedDefault "sequence" (.vint 3) (by decide),
   claim4_amended.2.2.2.2.2.1 typedDefault "threshold" (.vint 3) (by decide),
   claim4_amended.2.2.2.2.2.2.1 typedDefault "notes" (.vint 3) (by decide),
   claim4_amended.2.2.2.2.2.2.2 typedDefault⟩

lemma ratP3_eq : ratP3 = 3 / 10 := by
  rw [ratP3, Rat.mk'_eq_divInt, Rat.divInt_eq_div]; norm_num

lemma ratP9_eq : ratP9 = 9 / 10 := by
  rw [ratP9, Rat.mk'_eq_divInt, Rat.divInt_eq_div]; norm_num

lemma ratP5_eq : ratP5 = 1 / 2 := by
  rw [ratP5, Rat.mk'_eq_divInt, Rat.divInt_eq_div]; norm_num
